import Mathlib

/-!
Shallow embedding of server.js (copp1723/neo-seo): an Express application with
two routes.  GET / answers a fixed HTML upload form.  POST /upload stores the
multipart field csvFile via multer (dest only, no filter), spawns
python3 run_dealerships.py inputPath outputPath, logs stdout/stderr, and answers
from the close event: exit code 0 streams the output file as an attachment
named processed.csv, anything else answers 500 "Python script failed.".
-/

/-- Model of path.join restricted to plain relative segments, which is the only
way server.js uses it (no dot segments, no embedded separators). -/
def pathJoin (a b : String) : String := a ++ "/" ++ b

/-- Line 33 of server.js: the fixed output path, path.join of the server
directory, "uploads" and "processed.csv".  The directory is a parameter because
__dirname depends on where the server is installed. -/
def outputFile (dirname : String) : String :=
  pathJoin (pathJoin dirname ( "uploads" )) ( "processed.csv" )

/-- Line 36 of server.js: the script path, path.join of the server directory
and "run_dealerships.py". -/
def pythonScriptPath (dirname : String) : String :=
  pathJoin dirname ( "run_dealerships.py" )

/-- A file stored by multer: the client-declared original name and the
generated temporary path (req.file.originalname, req.file.path). -/
structure UploadedFile where
  originalname : String
  path : String
deriving DecidableEq

/-- The part of an Express request the upload handler reads: req.file, which
multer leaves undefined when the multipart body has no csvFile file field. -/
structure UploadRequest where
  file : Option UploadedFile
deriving DecidableEq

/-- A child_process.spawn invocation: the command and its argument vector. -/
structure SpawnCall where
  cmd : String
  args : List String
deriving DecidableEq

/-- The runtime error raised by the handler body: reading .path of an
undefined req.file is a TypeError, so no route response is produced. -/
inductive JsError where
  | typeErrorUndefinedFile
deriving DecidableEq

/-- Lines 30 to 43 of server.js: read req.file.path (a TypeError when the field
is missing) and build the spawn call python3 script inputPath outputPath. -/
def uploadSpawn (dirname : String) (req : UploadRequest) : Except JsError SpawnCall :=
  match req.file with
  | none => Except.error JsError.typeErrorUndefinedFile
  | some f =>
      Except.ok { cmd := "python3", args := [pythonScriptPath dirname, f.path, outputFile dirname] }

/-- An HTTP response body: a plain-text send, or the streamed bytes of a file. -/
inductive Body where
  | text (s : String)
  | file (bytes : List Nat)
deriving DecidableEq

/-- An HTTP response as this server shapes it: status, the optional
Content-Disposition header (set only by res.download), and the body. -/
structure HttpResponse where
  status : Nat
  contentDisposition : Option String
  body : Body
deriving DecidableEq

/-- Line 67 of server.js: res.status(500).send of the failure message. -/
def pythonFailedResponse : HttpResponse :=
  { status := 500, contentDisposition := none, body := Body.text ( "Python script failed." ) }

/-- Line 63 of server.js: res.status(500).send when res.download reports an
error streaming the output file. -/
def downloadErrorResponse : HttpResponse :=
  { status := 500, contentDisposition := none,
    body := Body.text ( "Error downloading processed file." ) }

/-- Outcome of res.download on the output path: the file's bytes when it can be
streamed, or a streaming error. -/
inductive StreamOutcome where
  | ok (bytes : List Nat)
  | err
deriving DecidableEq

/-- Lines 56 to 69 of server.js: the close-event callback.  code === 0 takes
res.download (attachment named processed.csv, the output file's exact bytes,
or the 500 download-error response when streaming fails); every other close
code, including null from a signal-terminated process, answers the 500
"Python script failed." response. -/
def closeHandler (code : Option Nat) (outputStream : StreamOutcome) : HttpResponse :=
  if code = some 0 then
    match outputStream with
    | StreamOutcome.ok bytes =>
        { status := 200,
          contentDisposition := some ( "attachment; filename=\"processed.csv\"" ),
          body := Body.file bytes }
    | StreamOutcome.err => downloadErrorResponse
  else
    pythonFailedResponse

/-- An event emitted by the spawned child process, in the order the event loop
delivers them to the handler's listeners. -/
inductive ProcEvent where
  | stdoutData (s : String)
  | stderrData (s : String)
  | closed (code : Option Nat)
deriving DecidableEq

/-- The first close event's code in a process event trace, if any: stdout and
stderr data events are only logged and never answer the request. -/
def firstClose : List ProcEvent → Option (Option Nat)
  | [] => none
  | ProcEvent.closed c :: _ => some c
  | ProcEvent.stdoutData _ :: rest => firstClose rest
  | ProcEvent.stderrData _ :: rest => firstClose rest

/-- The response the upload handler produces for a given process event trace:
nothing until a close event fires (the handler installs no timer, so an
endless trace of data events never answers), then the close callback's
response. -/
def handlerResponse (events : List ProcEvent) (outputStream : StreamOutcome) :
    Option HttpResponse :=
  (firstClose events).map (fun c => closeHandler c outputStream)

/-- Lines 18 to 24 of server.js: the template literal served at GET /. -/
def rootHtml : String :=
  "\n    <h1>Neosemo CSV Processor</h1>\n    <form action=\"/upload\" method=\"POST\" enctype=\"multipart/form-data\">\n      <input type=\"file\" name=\"csvFile\" accept=\".csv\" />\n      <button type=\"submit\">Upload & Process</button>\n    </form>\n  "

/-- Line 17 of server.js: res.send of the form page, status 200 by default. -/
def getRootResponse : HttpResponse :=
  { status := 200, contentDisposition := none, body := Body.text rootHtml }

/-- Whether a character list starts with the given pattern. -/
def begWith : List Char → List Char → Bool
  | [], _ => true
  | _ :: _, [] => false
  | p :: ps, c :: cs => p == c && begWith ps cs

/-- Whether a character list contains the given pattern as a contiguous run. -/
def hasSeg (pat : List Char) : List Char → Bool
  | [] => begWith pat []
  | c :: rest => begWith pat (c :: rest) || hasSeg pat rest

/-- Whether the served form page contains the given substring. -/
def htmlHas (pat : String) : Bool := hasSeg pat.toList rootHtml.toList

/-- A trace has a first close code exactly when it contains a close event. -/
theorem firstClose_isSome_iff (events : List ProcEvent) :
    (firstClose events).isSome = true ↔ ∃ c, ProcEvent.closed c ∈ events := by
  induction events with
  | nil => simp [firstClose]
  | cons e rest ih =>
      cases e with
      | stdoutData s => simp [firstClose, ih]
      | stderrData s => simp [firstClose, ih]
      | closed c =>
          simp only [firstClose, Option.isSome_some, true_iff]
          exact ⟨c, List.mem_cons_self _ _⟩

/-- The first close code of a trace whose only close event is appended last. -/
theorem firstClose_append_closed (pre : List ProcEvent) (k : Option Nat) :
    (∀ c, ProcEvent.closed c ∉ pre) →
    firstClose (pre ++ [ProcEvent.closed k]) = some k := by
  induction pre with
  | nil => intro _; rfl
  | cons e rest ih =>
      intro h
      cases e with
      | stdoutData s => exact ih (fun c hc => h c (List.mem_cons_of_mem _ hc))
      | stderrData s => exact ih (fun c hc => h c (List.mem_cons_of_mem _ hc))
      | closed c => exact absurd (List.mem_cons_self _ _) (h c)

/-- Claim C1: when the spawned process closes with any nonzero exit code, the
response is 500 with plain-text body "Python script failed.", regardless of the
output file's stream state and of whatever stdout or stderr data arrived
before the close event. -/
theorem nonzeroExitGives500 (n : Nat) (s : StreamOutcome) (pre : List ProcEvent)
    (hn : n ≠ 0) (hpre : ∀ c, ProcEvent.closed c ∉ pre) :
    handlerResponse (pre ++ [ProcEvent.closed (some n)]) s = some pythonFailedResponse := by
  unfold handlerResponse
  rw [firstClose_append_closed pre (some n) hpre]
  have hne : (some n : Option Nat) ≠ some 0 := by simpa using hn
  simp [closeHandler, hne]

/-- Concrete instance of the nonzero-exit claim: exit code 1, after stderr
output, with a readable output file. -/
theorem nonzeroExitGives500_w :
    handlerResponse ([ProcEvent.stderrData ( "boom" )] ++ [ProcEvent.closed (some 1)])
      (StreamOutcome.ok [104, 105]) = some pythonFailedResponse :=
  nonzeroExitGives500 1 (StreamOutcome.ok [104, 105]) [ProcEvent.stderrData ( "boom" )]
    (by decide) (by intro c hc; simp at hc)

/-- Claim C2: on exit code 0 with a streamable output file, the response is 200
with Content-Disposition attachment filename processed.csv and a body that is
exactly the output file's bytes. -/
theorem zeroExitDownloads (bytes : List Nat) :
    closeHandler (some 0) (StreamOutcome.ok bytes) =
      { status := 200,
        contentDisposition := some ( "attachment; filename=\"processed.csv\"" ),
        body := Body.file bytes } := rfl

/-- Claim C3: on exit code 0 with a failed output stream, the response is 500
with plain-text body "Error downloading processed file.". -/
theorem zeroExitStreamFailure500 :
    closeHandler (some 0) StreamOutcome.err =
      { status := 500, contentDisposition := none,
        body := Body.text ( "Error downloading processed file." ) } := rfl

/-- Claim C4: every successful run of the upload handler passes the same fixed
output path as the last spawn argument; the path depends only on the server
directory (it is uploads/processed.csv under it), never on the request. -/
theorem fixedOutputPath (d : String) (r1 r2 : UploadRequest) (s1 s2 : SpawnCall)
    (h1 : uploadSpawn d r1 = Except.ok s1) (h2 : uploadSpawn d r2 = Except.ok s2) :
    s1.args.getLast? = some (outputFile d) ∧ s2.args.getLast? = s1.args.getLast? ∧
      outputFile d = d ++ "/" ++ ( "uploads" ) ++ "/" ++ ( "processed.csv" ) := by
  cases r1 with
  | mk file1 =>
    cases r2 with
    | mk file2 =>
      cases file1 with
      | none => simp [uploadSpawn] at h1
      | some f1 =>
        cases file2 with
        | none => simp [uploadSpawn] at h2
        | some f2 =>
          simp only [uploadSpawn, Except.ok.injEq] at h1 h2
          subst h1
          subst h2
          exact ⟨rfl, rfl, rfl⟩

/-- Concrete instance of the fixed-output-path claim: two distinct requests
under the directory /srv both target /srv/uploads/processed.csv. -/
theorem fixedOutputPath_w :
    (SpawnCall.mk ( "python3" )
        [pythonScriptPath ( "/srv" ), ( "uploads/tmpA" ), outputFile ( "/srv" )]).args.getLast? =
        some (outputFile ( "/srv" )) ∧
      (SpawnCall.mk ( "python3" )
          [pythonScriptPath ( "/srv" ), ( "uploads/tmpB" ), outputFile ( "/srv" )]).args.getLast? =
        (SpawnCall.mk ( "python3" )
          [pythonScriptPath ( "/srv" ), ( "uploads/tmpA" ), outputFile ( "/srv" )]).args.getLast? ∧
      outputFile ( "/srv" ) = ( "/srv" ) ++ "/" ++ ( "uploads" ) ++ "/" ++ ( "processed.csv" ) :=
  fixedOutputPath ( "/srv" )
    (UploadRequest.mk (some (UploadedFile.mk ( "a.csv" ) ( "uploads/tmpA" ))))
    (UploadRequest.mk (some (UploadedFile.mk ( "b.bin" ) ( "uploads/tmpB" ))))
    (SpawnCall.mk ( "python3" ) [pythonScriptPath ( "/srv" ), ( "uploads/tmpA" ), outputFile ( "/srv" )])
    (SpawnCall.mk ( "python3" ) [pythonScriptPath ( "/srv" ), ( "uploads/tmpB" ), outputFile ( "/srv" )])
    rfl rfl

/-- Claim C5: with no csvFile file field, req.file is undefined, reading its
path is a TypeError, and the handler yields an error instead of any response. -/
theorem missingFileFieldErrors (d : String) :
    uploadSpawn d { file := none } = Except.error JsError.typeErrorUndefinedFile := rfl

/-- Claim C6: for every request carrying a file, the spawn call is the
interpreter python3 with exactly three arguments: the script path, then the
uploaded temp path, then the fixed output path. -/
theorem spawnArgumentShape (d : String) (req : UploadRequest) (f : UploadedFile)
    (h : req.file = some f) :
    uploadSpawn d req =
      Except.ok { cmd := "python3", args := [pythonScriptPath d, f.path, outputFile d] } := by
  cases req with
  | mk file =>
    cases h
    rfl

/-- Concrete instance of the spawn-shape claim. -/
theorem spawnArgumentShape_w :
    uploadSpawn ( "/srv" )
        { file := some { originalname := "a.csv", path := "uploads/abc123" } } =
      Except.ok { cmd := "python3",
                  args := [pythonScriptPath ( "/srv" ), ( "uploads/abc123" ), outputFile ( "/srv" )] } :=
  spawnArgumentShape ( "/srv" )
    { file := some { originalname := "a.csv", path := "uploads/abc123" } }
    { originalname := "a.csv", path := "uploads/abc123" } rfl

/-- Claim C7: a response exists exactly when the process trace contains a close
event; with no timer anywhere in the handler, a trace without a close event,
however long, never produces a response. -/
theorem responseOnlyAfterClose (events : List ProcEvent) (s : StreamOutcome) :
    (handlerResponse events s).isSome = true ↔ ∃ c, ProcEvent.closed c ∈ events := by
  have hmap : (handlerResponse events s).isSome = (firstClose events).isSome := by
    unfold handlerResponse
    cases firstClose events <;> rfl
  rw [hmap]
  exact firstClose_isSome_iff events

/-- Claim C8: the server accepts and forwards any uploaded file whatever its
original name, the forwarded spawn call never inspects that name, and the only
.csv restriction is the client-side accept attribute in the served form. -/
theorem anyExtensionAccepted (d n1 n2 p : String) :
    uploadSpawn d { file := some { originalname := n1, path := p } } =
        Except.ok { cmd := "python3", args := [pythonScriptPath d, p, outputFile d] } ∧
      uploadSpawn d { file := some { originalname := n1, path := p } } =
        uploadSpawn d { file := some { originalname := n2, path := p } } ∧
      htmlHas ( "accept=\".csv\"" ) = true := by
  refine ⟨rfl, rfl, ?_⟩
  decide

/-- Claim C9: GET / answers 200 with the HTML page, whose body contains the
form posting multipart data to /upload and the csvFile file input. -/
theorem rootFormPage :
    getRootResponse.status = 200 ∧
      getRootResponse.body = Body.text rootHtml ∧
      htmlHas ( "<form action=\"/upload\" method=\"POST\" enctype=\"multipart/form-data\">" ) = true ∧
      htmlHas ( "<input type=\"file\" name=\"csvFile\"" ) = true := by
  refine ⟨rfl, rfl, ?_, ?_⟩ <;> decide

/-- Claim C10: a null close code (signal termination) takes the failure branch,
and the success branch is taken exactly when the close code equals 0: the
response differs from the "Python script failed." one iff the code is 0. -/
theorem successBranchIffZero (s : StreamOutcome) :
    closeHandler none s = pythonFailedResponse ∧
      ∀ c : Option Nat, closeHandler c s ≠ pythonFailedResponse ↔ c = some 0 := by
  constructor
  · rfl
  · intro c
    constructor
    · intro h
      by_contra hc
      exact h (by simp [closeHandler, hc])
    · intro hc
      subst hc
      cases s with
      | ok bytes =>
          intro h
          have hst : (closeHandler (some 0) (StreamOutcome.ok bytes)).status = 200 := rfl
          rw [h] at hst
          exact absurd hst (by decide)
      | err => exact (by decide : downloadErrorResponse ≠ pythonFailedResponse)
